import Mathlib

/-!
Verification of the store exposure-policy evaluator of the woo-project
repository (the "pickup filter off" display/ranking policy).

The repository ships no executable implementation of this policy: it is
given by the design specification (spec.md §3, §4.1, §6, §7) together with
test-case documentation.  Every definition below whose doc comment starts
with `Modelled from the spec:` is a faithful shallow embedding of the
corresponding specification text.
-/

namespace WooPolicy

/-- Modelled from the spec: operational status flag of a store
(`status`: enum {OPEN, CLOSED, ...}). -/
inductive Status where
  | OPEN
  | CLOSED
deriving DecidableEq, Repr

/-- Modelled from the spec: the four delivery channel tags
{BAEMIN_ONE_PLUS, OPEN_LIST, ULTRA_CALL, POWER_CALL}. -/
inductive Channel where
  | BAEMIN_ONE_PLUS
  | OPEN_LIST
  | ULTRA_CALL
  | POWER_CALL
deriving DecidableEq, Repr

/-- Modelled from the spec: fulfillment model of a store
(`channelMode`: enum {OD_ONLY, MP_ONLY, OD_AND_MP}). -/
inductive ChannelMode where
  | OD_ONLY
  | MP_ONLY
  | OD_AND_MP
deriving DecidableEq, Repr

/-- Modelled from the spec: the pickup-filter toggle
(`filterMode`: {PICKUP_ON, PICKUP_OFF}). -/
inductive FilterMode where
  | PICKUP_ON
  | PICKUP_OFF
deriving DecidableEq, Repr

/-- Modelled from the spec: `operationTime`, a time interval (open/close)
against which the current instant is checked.  Instants are integers. -/
structure TimeInterval where
  openT : Int
  closeT : Int
deriving DecidableEq, Repr

/-- Modelled from the spec: `StoreRecord`, a snapshot of one merchant's
order-channel state at evaluation time (spec §3), extended with the
service-area fields used by the on-demand gating of spec §4.1
(`serviceable`, the dispatch-center identifier, the store location and its
fixed delivery radius). -/
structure StoreRecord where
  storeId : Nat
  status : Status
  ongoingChannels : List Channel
  channelMode : ChannelMode
  baropay : Bool
  baropayLive : Bool
  operationTime : TimeInterval
  rankScore : Int
  isUseSmartmenu : Bool
  serviceable : Bool
  centerId : Nat
  location : Int
  deliveryRadius : Nat
deriving DecidableEq, Repr

/-- Modelled from the spec: the requesting context of one search request —
the requester's dispatch-center identifier and location. -/
structure ReqContext where
  centerId : Nat
  location : Int
deriving DecidableEq, Repr

/-- Modelled from the spec: `EvaluationResult` (spec §3), keyed by the
store identifier so a ranked output entry can be traced to its store. -/
structure EvaluationResult where
  storeId : Nat
  displayable : Bool
  finalOperation : Bool
  rank : Nat
deriving DecidableEq, Repr

/-- Modelled from the spec: the set of channel tags that
`store.ongoingChannels` must intersect for display eligibility. -/
def deliveryChannels : List Channel :=
  [Channel.BAEMIN_ONE_PLUS, Channel.OPEN_LIST, Channel.ULTRA_CALL, Channel.POWER_CALL]

/-- Modelled from the spec: displayability condition 2 — the intersection
of `ongoingChannels` with the four delivery channel tags is non-empty. -/
def channelOk (s : StoreRecord) : Bool :=
  !(s.ongoingChannels.inter deliveryChannels).isEmpty

/-- Modelled from the spec: displayability condition 3, the instant-pay
condition branched on `channelMode`: OD_ONLY requires `baropay == true`;
MP_ONLY and OD_AND_MP place no constraint on `baropay`. -/
def baropayOk (s : StoreRecord) : Bool :=
  match s.channelMode with
  | ChannelMode.OD_ONLY => s.baropay
  | ChannelMode.MP_ONLY => true
  | ChannelMode.OD_AND_MP => true

/-- Modelled from the spec: whether the store's fulfillment model includes
the on-demand (courier-dispatched) model. -/
def supportsOD : ChannelMode → Bool
  | ChannelMode.OD_ONLY => true
  | ChannelMode.MP_ONLY => false
  | ChannelMode.OD_AND_MP => true

/-- Modelled from the spec: the distance between the requester's location
and the store's location (distance-units). -/
def distanceTo (ctx : ReqContext) (s : StoreRecord) : Nat :=
  (s.location - ctx.location).natAbs

/-- Modelled from the spec: the on-demand-channel service-area gating, an
additional displayability dimension for OD-model stores, evaluated as a
further AND condition: `serviceable == true`, matching dispatch-center
identifier, and requester within the store's fixed delivery radius.
Stores without the OD model are not subject to this gate. -/
def odGateOk (ctx : ReqContext) (s : StoreRecord) : Bool :=
  if supportsOD s.channelMode then
    s.serviceable && (s.centerId == ctx.centerId) && (distanceTo ctx s ≤ s.deliveryRadius)
  else
    true

/-- Modelled from the spec: the displayability rule of §4.1, evaluated
under `filterMode == PICKUP_OFF` (standard delivery-tab exposure policy):
status OPEN, non-empty channel intersection, the instant-pay condition,
and the on-demand service-area gate, AND-composed; `isUseSmartmenu` is
not read. -/
def displayable (ctx : ReqContext) (s : StoreRecord) : Bool :=
  (s.status == Status.OPEN) && channelOk s && baropayOk s && odGateOk ctx s

/-- Modelled from the spec: whether `now` falls within `operationTime`,
boundary instants at the interval edges included. -/
def withinOperationTime (t : TimeInterval) (now : Int) : Bool :=
  (t.openT ≤ now) && (now ≤ t.closeT)

/-- Modelled from the spec: the operational-status rule (`finalOperation`),
evaluated independently of displayability: `baropayLive == true` and `now`
within `operationTime`. -/
def finalOperation (s : StoreRecord) (now : Int) : Bool :=
  s.baropayLive && withinOperationTime s.operationTime now

/-- Modelled from the spec: `evaluate` for one store under
`filterMode == PICKUP_OFF` — a pure function of its inputs producing the
per-store `EvaluationResult`; the rank field is assigned later by the
ranking pass, so it is 0 here. -/
def evaluate (ctx : ReqContext) (now : Int) (s : StoreRecord) : EvaluationResult :=
  { storeId := s.storeId
    displayable := displayable ctx s
    finalOperation := finalOperation s now
    rank := 0 }

/-- Modelled from the spec: the hard rank cap of `PICKUP_OFF` mode. -/
def rankCap : Nat := 25

/-- Modelled from the spec: the descending-score order used by the ranking
pass (`a` before `b` when `b.rankScore ≤ a.rankScore`). -/
def scoreGE (a b : StoreRecord) : Prop :=
  b.rankScore ≤ a.rankScore

instance : DecidableRel scoreGE := fun a b =>
  inferInstanceAs (Decidable (b.rankScore ≤ a.rankScore))

instance : IsTotal StoreRecord scoreGE :=
  ⟨fun a b => (le_total b.rankScore a.rankScore).imp id id⟩

instance : IsTrans StoreRecord scoreGE :=
  ⟨fun _ _ _ h h' => le_trans h' h⟩

/-- Modelled from the spec: the stable sort of the candidate set by
`rankScore` descending (ties broken by original arrival order; insertion
sort is stable). -/
def sortByScore (cands : List StoreRecord) : List StoreRecord :=
  List.insertionSort scoreGE cands

/-- Modelled from the spec: assignment of `rank` 1..N to the sorted
candidate list. -/
def assignRanks (cands : List StoreRecord) : List (Nat × StoreRecord) :=
  List.enumFrom 1 (sortByScore cands)

/-- Modelled from the spec: the retention pass — keep only
`displayable == true` candidates with `rank <= 25`. -/
def retained (ctx : ReqContext) (cands : List StoreRecord) : List (Nat × StoreRecord) :=
  (assignRanks cands).filter (fun p => displayable ctx p.2 && decide (p.1 ≤ rankCap))

/-- The stores retained by the ranking pass, in output order. -/
def retainedStores (ctx : ReqContext) (cands : List StoreRecord) : List StoreRecord :=
  (retained ctx cands).map Prod.snd

/-- Modelled from the spec: `evaluateAndRank` under `PICKUP_OFF` — sort by
`rankScore` descending, assign ranks 1..N, retain displayable candidates
of rank at most 25, and emit their evaluation results in order. -/
def evaluateAndRankOff (ctx : ReqContext) (now : Int) (cands : List StoreRecord) :
    List EvaluationResult :=
  (retained ctx cands).map (fun p =>
    { storeId := p.2.storeId
      displayable := displayable ctx p.2
      finalOperation := finalOperation p.2 now
      rank := p.1 })

/-- Modelled from the spec: the result set returned to the search-serving
caller — the per-store results together with the cost-per-click
advertising entries (opaque identifiers). -/
structure ResultSet where
  storeResults : List EvaluationResult
  cpcEntries : List Nat
deriving DecidableEq, Repr

/-- Modelled from the spec: the advertising-channel mode coupling — CPC
placements are suppressed entirely under `PICKUP_ON` and shown under
`PICKUP_OFF`. -/
def cpcGate (mode : FilterMode) (ads : List Nat) : List Nat :=
  match mode with
  | FilterMode.PICKUP_OFF => ads
  | FilterMode.PICKUP_ON => []

/-- Modelled from the spec: the result-set builder.  The per-store
pipeline of `PICKUP_ON` (pickup-specific exposure policy) is outside the
specification's scope and is taken as a parameter `pickupOnPipe`; the CPC
gate applies at the result-set level, independently of either per-store
pipeline. -/
def buildResultSet (pickupOnPipe : List StoreRecord → List EvaluationResult)
    (ctx : ReqContext) (mode : FilterMode) (now : Int)
    (cands : List StoreRecord) (ads : List Nat) : ResultSet :=
  { storeResults :=
      match mode with
      | FilterMode.PICKUP_OFF => evaluateAndRankOff ctx now cands
      | FilterMode.PICKUP_ON => pickupOnPipe cands
    cpcEntries := cpcGate mode ads }

/-- Modelled from the spec: a raw store record as received from the
catalog provider, in which the required fields `channelMode`,
`ongoingChannels` and `operationTime` may be missing (spec §4.1 failure
semantics names exactly these three). -/
structure RawStoreRecord where
  storeId : Nat
  status : Status
  ongoingChannels : Option (List Channel)
  channelMode : Option ChannelMode
  baropay : Bool
  baropayLive : Bool
  operationTime : Option TimeInterval
  rankScore : Int
  isUseSmartmenu : Bool
  serviceable : Bool
  centerId : Nat
  location : Int
  deliveryRadius : Nat
deriving DecidableEq, Repr

/-- Modelled from the spec: `ValidationError`, identifying the missing
required field and the offending record. -/
inductive ValidationError where
  | missingChannelMode (storeId : Nat)
  | missingOngoingChannels (storeId : Nat)
  | missingOperationTime (storeId : Nat)
deriving DecidableEq, Repr

/-- Modelled from the spec: validation of a raw record — fail fast with a
validation error identifying the missing field, never defaulting a
missing precondition. -/
def validate (r : RawStoreRecord) : Except ValidationError StoreRecord :=
  match r.channelMode with
  | none => Except.error (ValidationError.missingChannelMode r.storeId)
  | some cm =>
    match r.ongoingChannels with
    | none => Except.error (ValidationError.missingOngoingChannels r.storeId)
    | some oc =>
      match r.operationTime with
      | none => Except.error (ValidationError.missingOperationTime r.storeId)
      | some ot =>
        Except.ok
          { storeId := r.storeId
            status := r.status
            ongoingChannels := oc
            channelMode := cm
            baropay := r.baropay
            baropayLive := r.baropayLive
            operationTime := ot
            rankScore := r.rankScore
            isUseSmartmenu := r.isUseSmartmenu
            serviceable := r.serviceable
            centerId := r.centerId
            location := r.location
            deliveryRadius := r.deliveryRadius }

/-- Modelled from the spec: `evaluate` on a raw record — validation
failure is surfaced as an error. -/
def evaluateRaw (ctx : ReqContext) (now : Int) (r : RawStoreRecord) :
    Except ValidationError EvaluationResult :=
  (validate r).map (evaluate ctx now)

/-- Modelled from the spec: batched evaluation over raw records — one
malformed candidate does not abort the rest; the evaluator returns the
ranked results of the valid records paired with the per-candidate
errors. -/
def evaluateAndRankRaw (ctx : ReqContext) (now : Int) (rs : List RawStoreRecord) :
    List EvaluationResult × List ValidationError :=
  (evaluateAndRankOff ctx now (rs.filterMap (fun r => (validate r).toOption)),
    rs.filterMap (fun r =>
      match validate r with
      | Except.error e => some e
      | Except.ok _ => none))

/-! ### Concrete fixtures used by witnesses and counterexamples -/

/-- A requesting context at center 0, location 0. -/
def ctx0 : ReqContext := { centerId := 0, location := 0 }

/-- A sample operation-time interval. -/
def baseInterval : TimeInterval := { openT := 0, closeT := 100 }

/-- A fully eligible OD_ONLY store near the requester. -/
def odStore : StoreRecord :=
  { storeId := 1
    status := Status.OPEN
    ongoingChannels := [Channel.ULTRA_CALL]
    channelMode := ChannelMode.OD_ONLY
    baropay := true
    baropayLive := true
    operationTime := baseInterval
    rankScore := 10
    isUseSmartmenu := false
    serviceable := true
    centerId := 0
    location := 2
    deliveryRadius := 4 }

/-- The eligible OD_ONLY store made non-serviceable. -/
def cexStore : StoreRecord := { odStore with storeId := 2, serviceable := false }

/-- The eligible store with status CLOSED. -/
def closedStore : StoreRecord := { odStore with storeId := 3, status := Status.CLOSED }

/-- The eligible store with no ongoing channels. -/
def noChanStore : StoreRecord := { odStore with storeId := 4, ongoingChannels := [] }

/-- An MP_ONLY variant of the eligible store. -/
def mpStore : StoreRecord := { odStore with storeId := 5, channelMode := ChannelMode.MP_ONLY }

/-- A store used for operational-status checks. -/
def opStore : StoreRecord := { odStore with storeId := 6 }

/-- A raw record whose `channelMode` is missing. -/
def badRaw : RawStoreRecord :=
  { storeId := 7
    status := Status.OPEN
    ongoingChannels := some [Channel.ULTRA_CALL]
    channelMode := none
    baropay := true
    baropayLive := true
    operationTime := some baseInterval
    rankScore := 3
    isUseSmartmenu := false
    serviceable := true
    centerId := 0
    location := 0
    deliveryRadius := 4 }

/-- A fully populated raw record. -/
def goodRaw : RawStoreRecord :=
  { badRaw with storeId := 8, channelMode := some ChannelMode.MP_ONLY }

/-- Thirty displayable MP_ONLY stores with pairwise-distinct rank scores. -/
def demoStores : List StoreRecord :=
  (List.range 30).map (fun i =>
    { storeId := 100 + i
      status := Status.OPEN
      ongoingChannels := [Channel.OPEN_LIST]
      channelMode := ChannelMode.MP_ONLY
      baropay := false
      baropayLive := true
      operationTime := baseInterval
      rankScore := 30 - (i : Int)
      isUseSmartmenu := false
      serviceable := true
      centerId := 0
      location := 0
      deliveryRadius := 4 })

/-! ### Helper lemmas about rank enumeration -/

theorem enumFrom_snd {α : Type} (n : Nat) (l : List α) :
    (List.enumFrom n l).map Prod.snd = l := by
  induction l generalizing n with
  | nil => rfl
  | cons x xs ih => simp [List.enumFrom, ih]

theorem enumFrom_len {α : Type} (n : Nat) (l : List α) :
    (List.enumFrom n l).length = l.length := by
  induction l generalizing n with
  | nil => rfl
  | cons x xs ih => simp [List.enumFrom, ih]

theorem enumFrom_fst_le {α : Type} {n : Nat} {l : List α} {p : Nat × α}
    (hp : p ∈ List.enumFrom n l) : n ≤ p.1 := by
  induction l generalizing n with
  | nil => simp [List.enumFrom] at hp
  | cons x xs ih =>
    simp only [List.enumFrom, List.mem_cons] at hp
    rcases hp with h | h
    · simp [h]
    · exact Nat.le_of_succ_le (ih h)

theorem enumFrom_filter_le {α : Type} (k : Nat) (l : List α) :
    ∀ n : Nat, (List.enumFrom n l).filter (fun p => decide (p.1 ≤ k))
      = List.enumFrom n (l.take (k + 1 - n)) := by
  induction l with
  | nil =>
    intro n
    simp [List.enumFrom]
  | cons x xs ih =>
    intro n
    by_cases hn : n ≤ k
    · have hs : k + 1 - n = (k - n) + 1 := by omega
      have hs2 : k + 1 - (n + 1) = k - n := by omega
      rw [hs]
      simp only [List.enumFrom, List.take, List.filter_cons]
      simp [hn, ih (n + 1), hs2]
    · have h0 : k + 1 - n = 0 := by omega
      have h1 : k + 1 - (n + 1) = 0 := by omega
      simp only [List.enumFrom, List.filter_cons]
      simp [hn, ih (n + 1), h0, h1]

/-! ### Claim theorems -/

/-- C1: under PICKUP_OFF, every emitted entry is displayable with rank
between 1 and 25; and for any candidate set of 30 stores, all displayable,
with pairwise-distinct rank scores, exactly 25 stores are retained, their
scores are strictly descending in output order, every retained store comes
from the candidate set, and every excluded candidate scores strictly below
every retained store — so rank positions 26 and beyond never appear. -/
theorem C1_rankingCap (ctx : ReqContext) (now : Int) (cands : List StoreRecord) :
    (∀ e ∈ evaluateAndRankOff ctx now cands,
      e.displayable = true ∧ 1 ≤ e.rank ∧ e.rank ≤ rankCap)
    ∧ (cands.length = 30 →
        (∀ s ∈ cands, displayable ctx s = true) →
        (cands.map StoreRecord.rankScore).Nodup →
        (retainedStores ctx cands).length = 25
        ∧ (evaluateAndRankOff ctx now cands).length = 25
        ∧ (retainedStores ctx cands).Pairwise (fun a b => b.rankScore < a.rankScore)
        ∧ (∀ t ∈ retainedStores ctx cands, t ∈ cands)
        ∧ (∀ s ∈ cands, s ∉ retainedStores ctx cands →
            ∀ t ∈ retainedStores ctx cands, s.rankScore < t.rankScore)) := by
  constructor
  · intro e he
    simp only [evaluateAndRankOff] at he
    rcases List.mem_map.mp he with ⟨p, hp, rfl⟩
    simp only [retained, assignRanks] at hp
    rcases List.mem_filter.mp hp with ⟨hmem, hpred⟩
    simp only [Bool.and_eq_true, decide_eq_true_eq] at hpred
    exact ⟨hpred.1, enumFrom_fst_le hmem, hpred.2⟩
  · intro hlen hd hnd
    have hperm : (sortByScore cands).Perm cands := List.perm_insertionSort scoreGE cands
    have hslen : (sortByScore cands).length = 30 := by rw [hperm.length_eq, hlen]
    have hret : retained ctx cands
        = List.enumFrom 1 ((sortByScore cands).take rankCap) := by
      have h1 : retained ctx cands
          = (List.enumFrom 1 (sortByScore cands)).filter (fun p => decide (p.1 ≤ rankCap)) := by
        simp only [retained, assignRanks]
        apply List.filter_congr
        intro p hp
        have hs : p.2 ∈ sortByScore cands := by
          have h2 := List.mem_map_of_mem Prod.snd hp
          rwa [enumFrom_snd] at h2
        simp [hd p.2 (hperm.subset hs)]
      rw [h1, enumFrom_filter_le]
      norm_num
    have hstores : retainedStores ctx cands = (sortByScore cands).take rankCap := by
      simp only [retainedStores, hret]
      exact enumFrom_snd 1 _
    have hsorted : (sortByScore cands).Pairwise (fun a b => b.rankScore < a.rankScore) := by
      have hs : (sortByScore cands).Pairwise scoreGE :=
        List.sorted_insertionSort scoreGE cands
      have hnd2 : ((sortByScore cands).map StoreRecord.rankScore).Nodup :=
        ((hperm.map StoreRecord.rankScore).nodup_iff).mpr hnd
      have hne : (sortByScore cands).Pairwise
          (fun a b => StoreRecord.rankScore a ≠ StoreRecord.rankScore b) :=
        List.pairwise_map.mp hnd2
      exact (hs.and hne).imp (fun h => lt_of_le_of_ne h.1 (Ne.symm h.2))
    have htake : (sortByScore cands).take rankCap ++ (sortByScore cands).drop rankCap
        = sortByScore cands := List.take_append_drop rankCap _
    refine ⟨?_, ?_, ?_, ?_, ?_⟩
    · rw [hstores, List.length_take, hslen]
      decide
    · simp only [evaluateAndRankOff, List.length_map, hret, enumFrom_len,
        List.length_take, hslen]
      decide
    · rw [hstores]
      exact List.Pairwise.sublist (List.take_sublist _ _) hsorted
    · intro t ht
      rw [hstores] at ht
      exact hperm.subset (List.take_subset _ _ ht)
    · intro s hs hsnot t ht
      rw [hstores] at hsnot ht
      have hs2 : s ∈ sortByScore cands := hperm.mem_iff.mpr hs
      have hsplit : s ∈ (sortByScore cands).take rankCap
          ∨ s ∈ (sortByScore cands).drop rankCap := by
        rw [← List.mem_append, htake]
        exact hs2
      have hsdrop : s ∈ (sortByScore cands).drop rankCap := hsplit.resolve_left hsnot
      have hpair := hsorted
      rw [← htake] at hpair
      rcases List.pairwise_append.mp hpair with ⟨_, _, hcross⟩
      exact hcross t ht s hsdrop

/-- C1 witness: thirty concrete displayable stores with distinct scores —
exactly 25 are retained, in strictly descending score order, all from the
candidate set, and each excluded store scores below every retained one. -/
theorem C1_witness :
    (retainedStores ctx0 demoStores).length = 25
    ∧ (evaluateAndRankOff ctx0 0 demoStores).length = 25
    ∧ (retainedStores ctx0 demoStores).Pairwise (fun a b => b.rankScore < a.rankScore)
    ∧ (∀ t ∈ retainedStores ctx0 demoStores, t ∈ demoStores)
    ∧ (∀ s ∈ demoStores, s ∉ retainedStores ctx0 demoStores →
        ∀ t ∈ retainedStores ctx0 demoStores, s.rankScore < t.rankScore) :=
  (C1_rankingCap ctx0 0 demoStores).2 (by decide) (by decide) (by decide)

/-- C2 counterexample: an OD_ONLY store with `baropay == true`, status
OPEN and a non-empty channel intersection whose service-area gate fails
(`serviceable == false`) has `displayable == false`, refuting the claim
that those three conditions alone force `displayable == true`. -/
theorem C2_counterexample :
    cexStore.channelMode = ChannelMode.OD_ONLY
    ∧ cexStore.baropay = true
    ∧ cexStore.status = Status.OPEN
    ∧ cexStore.ongoingChannels.inter deliveryChannels ≠ []
    ∧ displayable ctx0 cexStore = false := by
  refine ⟨rfl, rfl, rfl, ?_, rfl⟩
  decide

/-- C2 (amended): under PICKUP_OFF, an OD_ONLY store with
`baropay == false` has `displayable == false`; with `baropay == true`,
status OPEN, non-empty channel intersection, and the on-demand
service-area gate passing, `displayable == true`. -/
theorem C2_odOnly_baropay (ctx : ReqContext) (s : StoreRecord)
    (hmode : s.channelMode = ChannelMode.OD_ONLY) :
    (s.baropay = false → displayable ctx s = false)
    ∧ (s.baropay = true → s.status = Status.OPEN →
        s.ongoingChannels.inter deliveryChannels ≠ [] →
        odGateOk ctx s = true → displayable ctx s = true) := by
  constructor
  · intro hb
    simp [displayable, baropayOk, hmode, hb]
  · intro hb hst hch hod
    have h1 : (s.ongoingChannels.inter deliveryChannels).isEmpty = false := by
      cases hi : s.ongoingChannels.inter deliveryChannels with
      | nil => exact absurd hi hch
      | cons a t => rfl
    simp [displayable, channelOk, baropayOk, hmode, hb, hst, hod, h1]

/-- C2 witness: the fully eligible OD_ONLY store is displayable. -/
theorem C2_witness : displayable ctx0 odStore = true :=
  (C2_odOnly_baropay ctx0 odStore rfl).2 rfl rfl (by decide) rfl

/-- C3: `finalOperation == true` iff `baropayLive == true` and `now` lies
within `operationTime` boundaries included; `finalOperation` depends only
on `baropayLive` and `operationTime` (not on any displayability field);
and retention in the ranked output is independent of the evaluation
instant, so a displayable store that is not operating is still emitted
rather than hidden. -/
theorem C3_finalOperation (s s' : StoreRecord) (now now1 now2 : Int)
    (ctx : ReqContext) (cands : List StoreRecord)
    (hb : s'.baropayLive = s.baropayLive) (ht : s'.operationTime = s.operationTime) :
    (finalOperation s now = true ↔
      (s.baropayLive = true ∧ s.operationTime.openT ≤ now ∧ now ≤ s.operationTime.closeT))
    ∧ finalOperation s' now = finalOperation s now
    ∧ ((evaluateAndRankOff ctx now1 cands).map (fun e => (e.storeId, e.displayable, e.rank))
        = (evaluateAndRankOff ctx now2 cands).map (fun e => (e.storeId, e.displayable, e.rank))) := by
  refine ⟨?_, ?_, ?_⟩
  · simp [finalOperation, withinOperationTime, Bool.and_eq_true, decide_eq_true_iff, and_assoc]
  · simp [finalOperation, hb, ht]
  · simp [evaluateAndRankOff, List.map_map, Function.comp]

/-- C3 witness: the operational-status rule at a concrete store, a
concrete variant differing only in displayability fields, and a concrete
candidate list evaluated at two instants. -/
theorem C3_witness :
    (finalOperation opStore 5 = true ↔
      (opStore.baropayLive = true
        ∧ opStore.operationTime.openT ≤ 5 ∧ 5 ≤ opStore.operationTime.closeT))
    ∧ finalOperation ({ opStore with status := Status.CLOSED }) 5 = finalOperation opStore 5
    ∧ ((evaluateAndRankOff ctx0 0 [opStore]).map (fun e => (e.storeId, e.displayable, e.rank))
        = (evaluateAndRankOff ctx0 200 [opStore]).map (fun e => (e.storeId, e.displayable, e.rank))) :=
  C3_finalOperation opStore ({ opStore with status := Status.CLOSED }) 5 0 200 ctx0 [opStore]
    rfl rfl

/-- C4: under PICKUP_OFF, a store whose status is not OPEN is never
displayable, regardless of every other field. -/
theorem C4_statusGate (ctx : ReqContext) (s : StoreRecord)
    (h : s.status ≠ Status.OPEN) :
    displayable ctx s = false := by
  have hb : (s.status == Status.OPEN) = false := beq_eq_false_iff_ne.mpr h
  simp [displayable, hb]

/-- C4 witness: the CLOSED store is not displayable. -/
theorem C4_witness : displayable ctx0 closedStore = false :=
  C4_statusGate ctx0 closedStore (by decide)

/-- C5: under PICKUP_OFF, a store whose `ongoingChannels` has empty
intersection with the four delivery channel tags is never displayable. -/
theorem C5_channelGate (ctx : ReqContext) (s : StoreRecord)
    (h : s.ongoingChannels.inter deliveryChannels = []) :
    displayable ctx s = false := by
  simp [displayable, channelOk, h]

/-- C5 witness: the store with no ongoing channels is not displayable. -/
theorem C5_witness : displayable ctx0 noChanStore = false :=
  C5_channelGate ctx0 noChanStore (by decide)

/-- C6: for MP_ONLY and OD_AND_MP stores, `displayable` is independent of
`baropay`: flipping only that field never changes the result. -/
theorem C6_baropayIndependence (ctx : ReqContext) (s : StoreRecord) (b : Bool)
    (h : s.channelMode = ChannelMode.MP_ONLY ∨ s.channelMode = ChannelMode.OD_AND_MP) :
    displayable ctx ({ s with baropay := b }) = displayable ctx s := by
  rcases h with h | h <;>
    simp [displayable, channelOk, baropayOk, odGateOk, supportsOD, distanceTo, h]

/-- C6 witness: flipping `baropay` on the MP_ONLY store leaves
`displayable` unchanged. -/
theorem C6_witness :
    displayable ctx0 ({ mpStore with baropay := false }) = displayable ctx0 mpStore :=
  C6_baropayIndependence ctx0 mpStore false (Or.inl rfl)

/-- C7: `isUseSmartmenu` never affects evaluation — two stores identical
in every other field produce the same `EvaluationResult`. -/
theorem C7_smartmenuIndependence (ctx : ReqContext) (now : Int) (s : StoreRecord) (b : Bool) :
    evaluate ctx now ({ s with isUseSmartmenu := b }) = evaluate ctx now s :=
  rfl

/-- C8: for every OD-model store, displayability requires the
service-area gate: a failing `serviceable` flag, a dispatch-center
mismatch, or a requester outside the delivery radius each force
`displayable == false` regardless of the other rules. -/
theorem C8_odServiceAreaGate (ctx : ReqContext) (s : StoreRecord)
    (hod : supportsOD s.channelMode = true) :
    (s.serviceable = false → displayable ctx s = false)
    ∧ (s.centerId ≠ ctx.centerId → displayable ctx s = false)
    ∧ (s.deliveryRadius < distanceTo ctx s → displayable ctx s = false) := by
  refine ⟨?_, ?_, ?_⟩
  · intro h
    simp [displayable, odGateOk, hod, h]
  · intro h
    have hb : (s.centerId == ctx.centerId) = false := beq_eq_false_iff_ne.mpr h
    simp [displayable, odGateOk, hod, hb]
  · intro h
    have hn : ¬(distanceTo ctx s ≤ s.deliveryRadius) := Nat.not_le.mpr h
    simp [displayable, odGateOk, hod, hn]

/-- C8 witness: the non-serviceable OD_ONLY store is not displayable. -/
theorem C8_witness : displayable ctx0 cexStore = false :=
  (C8_odServiceAreaGate ctx0 cexStore rfl).1 rfl

/-- C9: CPC advertising entries are present in the result set exactly
under PICKUP_OFF and absent under PICKUP_ON, and the gate is independent
of the candidate stores (hence of the per-store displayability rules),
for any pickup-mode per-store pipeline. -/
theorem C9_cpcGate (pickupOnPipe : List StoreRecord → List EvaluationResult)
    (ctx : ReqContext) (now : Int) (cands cands' : List StoreRecord)
    (ads : List Nat) (mode : FilterMode) :
    (buildResultSet pickupOnPipe ctx FilterMode.PICKUP_OFF now cands ads).cpcEntries = ads
    ∧ (buildResultSet pickupOnPipe ctx FilterMode.PICKUP_ON now cands ads).cpcEntries = []
    ∧ (buildResultSet pickupOnPipe ctx mode now cands ads).cpcEntries
        = (buildResultSet pickupOnPipe ctx mode now cands' ads).cpcEntries := by
  refine ⟨rfl, rfl, ?_⟩
  cases mode <;> rfl

/-- C10: a raw record missing `channelMode`, `ongoingChannels` or
`operationTime` fails with a validation error identifying the missing
field and never yields a permissive result; and in a batch a malformed
candidate contributes its error without aborting evaluation of the
remaining candidates. -/
theorem C10_validation (ctx : ReqContext) (now : Int) (r : RawStoreRecord)
    (rs : List RawStoreRecord) :
    (r.channelMode = none →
      evaluateRaw ctx now r = Except.error (ValidationError.missingChannelMode r.storeId))
    ∧ (r.channelMode ≠ none → r.ongoingChannels = none →
      evaluateRaw ctx now r = Except.error (ValidationError.missingOngoingChannels r.storeId))
    ∧ (r.channelMode ≠ none → r.ongoingChannels ≠ none → r.operationTime = none →
      evaluateRaw ctx now r = Except.error (ValidationError.missingOperationTime r.storeId))
    ∧ ((r.channelMode = none ∨ r.ongoingChannels = none ∨ r.operationTime = none) →
      ∀ res, evaluateRaw ctx now r ≠ Except.ok res)
    ∧ (∀ e, validate r = Except.error e →
      (evaluateAndRankRaw ctx now (r :: rs)).1 = (evaluateAndRankRaw ctx now rs).1
      ∧ (evaluateAndRankRaw ctx now (r :: rs)).2 = e :: (evaluateAndRankRaw ctx now rs).2) := by
  refine ⟨?_, ?_, ?_, ?_, ?_⟩
  · intro h
    simp [evaluateRaw, validate, Except.map, h]
  · intro h1 h2
    rcases hcm : r.channelMode with _ | cm
    · exact absurd hcm h1
    · simp [evaluateRaw, validate, Except.map, hcm, h2]
  · intro h1 h2 h3
    rcases hcm : r.channelMode with _ | cm
    · exact absurd hcm h1
    · rcases hoc : r.ongoingChannels with _ | oc
      · exact absurd hoc h2
      · simp [evaluateRaw, validate, Except.map, hcm, hoc, h3]
  · intro h res
    rcases h with h | h | h
    · simp [evaluateRaw, validate, Except.map, h]
    · rcases hcm : r.channelMode with _ | cm
      · simp [evaluateRaw, validate, Except.map, hcm]
      · simp [evaluateRaw, validate, Except.map, hcm, h]
    · rcases hcm : r.channelMode with _ | cm
      · simp [evaluateRaw, validate, Except.map, hcm]
      · rcases hoc : r.ongoingChannels with _ | oc
        · simp [evaluateRaw, validate, Except.map, hcm, hoc]
        · simp [evaluateRaw, validate, Except.map, hcm, hoc, h]
  · intro e he
    constructor
    · simp [evaluateAndRankRaw, List.filterMap_cons, he, Except.toOption]
    · simp [evaluateAndRankRaw, List.filterMap_cons, he]

/-- C10 witness: the raw record with missing `channelMode` fails with the
error naming that field, and in a two-record batch the good record is
still evaluated while the error is reported. -/
theorem C10_witness :
    evaluateRaw ctx0 0 badRaw = Except.error (ValidationError.missingChannelMode 7)
    ∧ (evaluateAndRankRaw ctx0 0 [badRaw, goodRaw]).1 = (evaluateAndRankRaw ctx0 0 [goodRaw]).1
    ∧ (evaluateAndRankRaw ctx0 0 [badRaw, goodRaw]).2
        = ValidationError.missingChannelMode 7 :: (evaluateAndRankRaw ctx0 0 [goodRaw]).2 :=
  ⟨(C10_validation ctx0 0 badRaw [goodRaw]).1 rfl,
    ((C10_validation ctx0 0 badRaw [goodRaw]).2.2.2.2
      (ValidationError.missingChannelMode 7) rfl).1,
    ((C10_validation ctx0 0 badRaw [goodRaw]).2.2.2.2
      (ValidationError.missingChannelMode 7) rfl).2⟩

end WooPolicy
